import Mathlib

/-!
Shallow embedding of the financial core of `loan_calculator.py`
(classes `FinancialCalculator` and `LoanRecord`, plus the numeric
validation performed by `LoanCalculatorWindow.add_record`, which is the
only construction path the program offers).

Modelling conventions:
* Python `float` values are modelled as `ℚ` (exact rational arithmetic);
  the literals `0.01`, `1e-6`, `1e-10`, `-0.999`, `-0.99` become the
  corresponding rationals.
* Python `int` is modelled as `ℤ`.
* `Optional[float]` is modelled as `Option ℚ`.
* `npv` / `npv_derivative` return `float('inf')` when `rate <= -1`; this
  is modelled as `Option ℚ` with `none` standing for that infinity.  In
  the source, once the loop sees those infinities it computes
  `irr - inf/inf = nan`, every later comparison on `nan` is false, the
  loop runs to its iteration cap carrying `nan`, and `max(0, nan)`
  evaluates to `0`; the model therefore returns `0` from the loop in
  that branch.  (The branch is unreachable from the loop's start value
  `0.01`, because the clamp keeps every rate above `-1`.)
-/

namespace LoanCalc

/-- `FinancialCalculator.calculate_total_interest`:
`monthly_interest * periods`. -/
def calculate_total_interest (monthly_interest : ℚ) (periods : ℤ) : ℚ :=
  monthly_interest * (periods : ℚ)

/-- `FinancialCalculator.calculate_interest_rate`:
`0.0` if `principal <= 0`, else `(total_interest / principal) * 100`. -/
def calculate_interest_rate (total_interest principal : ℚ) : ℚ :=
  if principal ≤ 0 then 0 else total_interest / principal * 100

/-- `FinancialCalculator.calculate_monthly_payment`:
`0.0` if `periods <= 0`, else `(principal + total_interest) / periods`. -/
def calculate_monthly_payment (principal total_interest : ℚ) (periods : ℤ) : ℚ :=
  if periods ≤ 0 then 0 else (principal + total_interest) / (periods : ℚ)

/-- The running sum of the inner `npv` loop:
`Σ_{i=1}^{n} payment / (1 + rate) ^ i`. -/
def npvSum (payment rate : ℚ) : ℕ → ℚ
  | 0 => 0
  | k + 1 => npvSum payment rate k + payment / (1 + rate) ^ (k + 1)

/-- The local `npv` of `FinancialCalculator.calculate_irr`; `none`
models the `float('inf')` returned when `rate <= -1`. -/
def npv (principal payment rate : ℚ) (periods : ℕ) : Option ℚ :=
  if rate ≤ -1 then none
  else some (-principal + npvSum payment rate periods)

/-- The running sum of the inner `npv_derivative` loop:
`- Σ_{i=1}^{n} i * payment / (1 + rate) ^ (i + 1)`. -/
def npvDerivSum (payment rate : ℚ) : ℕ → ℚ
  | 0 => 0
  | k + 1 => npvDerivSum payment rate k - ((k : ℚ) + 1) * payment / (1 + rate) ^ (k + 2)

/-- The local `npv_derivative` of `FinancialCalculator.calculate_irr`;
`none` models the `float('inf')` returned when `rate <= -1`. -/
def npv_derivative (payment rate : ℚ) (periods : ℕ) : Option ℚ :=
  if rate ≤ -1 then none
  else some (npvDerivSum payment rate periods)

/-- The Newton iteration of `FinancialCalculator.calculate_irr`, fuel =
remaining iterations out of `max_iterations = 100`.  On the
`abs(derivative) < 1e-10` break and on the `abs(new_irr - irr) <
tolerance` break the source leaves the loop before the assignment
`irr = new_irr`, so both breaks return the current `r`.  The `none`
(infinity) branch returns `0` per the NaN cascade described in the file
header. -/
def irrLoop (principal payment : ℚ) (periods : ℕ) : ℕ → ℚ → ℚ
  | 0, r => r
  | fuel + 1, r =>
    match npv principal payment r periods, npv_derivative payment r periods with
    | some v, some d =>
      if |d| < 1 / 10 ^ 10 then r
      else
        let rNew := r - v / d
        if |rNew - r| < 1 / 10 ^ 6 then r
        else
          let r2 := if rNew < -(999 / 1000) then -(99 / 100) else rNew
          irrLoop principal payment periods fuel r2
    | _, _ => 0

/-- `FinancialCalculator.calculate_irr`: guard, then 100 Newton
iterations from the start value `0.01`, then `max(0, irr)`. -/
def calculate_irr (principal payment : ℚ) (periods : ℤ) : ℚ :=
  if principal ≤ 0 ∨ payment ≤ 0 ∨ periods ≤ 0 then 0
  else max 0 (irrLoop principal payment periods.toNat 100 (1 / 100))

/-- `FinancialCalculator.calculate_annual_rate`: `monthly_irr * 12 * 100`. -/
def calculate_annual_rate (monthly_irr : ℚ) : ℚ :=
  monthly_irr * 12 * 100

/-- The fields of `LoanRecord` (timestamp kept as an opaque string). -/
structure LoanRecord where
  name : String
  principal : ℚ
  periods : ℤ
  monthly_interest : Option ℚ
  total_interest : Option ℚ
  timestamp : String
deriving DecidableEq

/-- `LoanRecord._auto_calculate`: fill in whichever of
`monthly_interest` / `total_interest` is `None` from the other; the
total→monthly direction is guarded by `periods > 0`. -/
def auto_calculate (r : LoanRecord) : LoanRecord :=
  match r.monthly_interest, r.total_interest with
  | some m, none =>
    { r with total_interest := some (calculate_total_interest m r.periods) }
  | none, some t =>
    if 0 < r.periods then { r with monthly_interest := some (t / (r.periods : ℚ)) }
    else r
  | _, _ => r

/-- Python `timestamp or now`: an absent or empty string falls back to
the current time string. -/
def resolveTimestamp (ts : Option String) (now : String) : String :=
  match ts with
  | some s => if s = "" then now else s
  | none => now

/-- `LoanRecord.__init__`: store the arguments, then run
`_auto_calculate`.  `now` is the externally supplied current-time
string standing in for `datetime.now().strftime(...)`. -/
def mk_record (name : String) (principal : ℚ) (periods : ℤ)
    (monthly_interest total_interest : Option ℚ)
    (ts : Option String) (now : String) : LoanRecord :=
  auto_calculate
    { name := name, principal := principal, periods := periods,
      monthly_interest := monthly_interest, total_interest := total_interest,
      timestamp := resolveTimestamp ts now }

/-- The distinct rejection messages of
`LoanCalculatorWindow.add_record`. -/
inductive InputError where
  | emptyName
  | nonPositivePrincipal
  | nonPositivePeriods
  | missingInterest
deriving DecidableEq

/-- The numeric-validation and construction path of
`LoanCalculatorWindow.add_record`: reject an empty (stripped) name,
`principal <= 0`, `periods <= 0`, and `monthly_interest == 0 and
total_interest == 0`; otherwise construct a `LoanRecord`, turning each
non-positive interest input into `None`. -/
def add_record (name : String) (principal : ℚ) (periods : ℤ)
    (monthly_interest total_interest : ℚ) (now : String) :
    Except InputError LoanRecord :=
  if name = "" then .error .emptyName
  else if principal ≤ 0 then .error .nonPositivePrincipal
  else if periods ≤ 0 then .error .nonPositivePeriods
  else if monthly_interest = 0 ∧ total_interest = 0 then .error .missingInterest
  else .ok (mk_record name principal periods
      (if 0 < monthly_interest then some monthly_interest else none)
      (if 0 < total_interest then some total_interest else none)
      none now)

/-- Modelled from the spec: the spec's step 5 says that on
`|r_new - r| < 1e-6` the loop stops "and returns `r_new`" — the
freshly computed iterate.  This variant differs from `irrLoop` only in
that convergence branch; it exists to be compared with `irrLoop`. -/
def irrLoopSpecConv (principal payment : ℚ) (periods : ℕ) : ℕ → ℚ → ℚ
  | 0, r => r
  | fuel + 1, r =>
    match npv principal payment r periods, npv_derivative payment r periods with
    | some v, some d =>
      if |d| < 1 / 10 ^ 10 then r
      else
        let rNew := r - v / d
        if |rNew - r| < 1 / 10 ^ 6 then rNew
        else
          let r2 := if rNew < -(999 / 1000) then -(99 / 100) else rNew
          irrLoopSpecConv principal payment periods fuel r2
    | _, _ => 0

/-- Iteration counter for the Newton loop of `calculate_irr`: counts
how many times the assignment `irr = new_irr` runs, i.e. how many full
iterations are performed before a break or the fuel cap. -/
def irrSteps (principal payment : ℚ) (periods : ℕ) : ℕ → ℚ → ℕ
  | 0, _ => 0
  | fuel + 1, r =>
    match npv principal payment r periods, npv_derivative payment r periods with
    | some v, some d =>
      if |d| < 1 / 10 ^ 10 then 0
      else
        let rNew := r - v / d
        if |rNew - r| < 1 / 10 ^ 6 then 0
        else
          let r2 := if rNew < -(999 / 1000) then -(99 / 100) else rNew
          irrSteps principal payment periods fuel r2 + 1
    | _, _ => 0

/-- Unfolding lemma: when the Newton step from `r` lands within the
convergence tolerance, `irrLoop` leaves the loop via the second break,
before the assignment `irr = new_irr`, hence returns `r` itself. -/
theorem irrLoop_converged_eq (principal payment r v d : ℚ) (periods fuel : ℕ)
    (hv : npv principal payment r periods = some v)
    (hd : npv_derivative payment r periods = some d)
    (hflat : ¬ |d| < 1 / 10 ^ 10)
    (hconv : |r - v / d - r| < 1 / 10 ^ 6) :
    irrLoop principal payment periods (fuel + 1) r = r := by
  rw [irrLoop, hv, hd]
  simp only []
  rw [if_neg hflat, if_pos hconv]

/-- Unfolding lemma for the spec-worded variant: on convergence it
returns the fresh iterate `r - v / d`. -/
theorem irrLoopSpecConv_converged_eq (principal payment r v d : ℚ) (periods fuel : ℕ)
    (hv : npv principal payment r periods = some v)
    (hd : npv_derivative payment r periods = some d)
    (hflat : ¬ |d| < 1 / 10 ^ 10)
    (hconv : |r - v / d - r| < 1 / 10 ^ 6) :
    irrLoopSpecConv principal payment periods (fuel + 1) r = r - v / d := by
  rw [irrLoopSpecConv, hv, hd]
  simp only []
  rw [if_neg hflat, if_pos hconv]

/-- The Newton loop performs at most as many iterations as it has fuel. -/
theorem irrSteps_le_fuel (principal payment : ℚ) (periods : ℕ) :
    ∀ fuel r, irrSteps principal payment periods fuel r ≤ fuel := by
  intro fuel
  induction fuel with
  | zero => intro r; rw [irrSteps]
  | succ k ih =>
    intro r
    rw [irrSteps]
    split
    · dsimp only []
      split_ifs
      · exact Nat.zero_le _
      · exact Nat.zero_le _
      · exact Nat.succ_le_succ (ih _)
      · exact Nat.succ_le_succ (ih _)
    · exact Nat.zero_le _

/-- Claim C1, counterexample: constructing with both `perPeriodInterest`
and `totalInterest` supplied non-zero (name "A", principal 100, periods
12, per-period interest 50, total interest 999) does NOT signal an
error — the construction path accepts it and builds a record — refuting
the claim that an ambiguous both-supplied pair is rejected. -/
theorem add_record_accepts_both_interests :
    (50 : ℚ) ≠ 0 ∧ (999 : ℚ) ≠ 0 ∧
    (add_record "A" 100 12 50 999 "t").isOk = true := by
  refine ⟨by norm_num, by norm_num, ?_⟩
  rw [add_record, if_neg (by decide : ("A" : String) ≠ "")]
  norm_num [Except.isOk, Except.toBool]

/-- Claim C1 (amended): for every construction attempt with a non-empty
name, the construction path (`add_record` validation plus the
`LoanRecord` constructor) signals an error exactly when
`principal <= 0`, or `periods <= 0`, or both interest inputs are zero
(the "absent" sentinel); a pair with both interests supplied non-zero
is accepted. -/
theorem add_record_rejects_iff (name : String) (principal : ℚ) (periods : ℤ)
    (monthly_interest total_interest : ℚ) (now : String) (hname : name ≠ "") :
    (add_record name principal periods monthly_interest total_interest now).isOk = false ↔
      principal ≤ 0 ∨ periods ≤ 0 ∨ (monthly_interest = 0 ∧ total_interest = 0) := by
  rw [add_record, if_neg hname]
  split_ifs <;> simp_all [Except.isOk, Except.toBool]

/-- Claim C1 witness: at name "A", principal 0 the construction is
rejected, matching the amended characterization. -/
theorem add_record_rejects_iff_witness :
    (add_record "A" 0 12 50 0 "t").isOk = false ↔
      (0 : ℚ) ≤ 0 ∨ (12 : ℤ) ≤ 0 ∨ ((50 : ℚ) = 0 ∧ (0 : ℚ) = 0) :=
  add_record_rejects_iff "A" 0 12 50 0 "t" (by decide)

/-- Claim C2, counterexample: at `principal = 1`,
`perPeriodPayment = 10100001/10000000`, `periods = 1` (all passing the
positivity guard) the very first Newton step satisfies
`|r_new - r| < 1e-6` with `r_new ≠ r`; the loop of the code returns the
old iterate `r = 1/100` (the start value), while the spec's words say
the fresh iterate `r_new = 1/100 + 101/1010000100` is returned.  The
two disagree, refuting the claim. -/
theorem irr_loop_differs_from_spec_return :
    irrLoop 1 (10100001 / 10000000) 1 100 (1 / 100) = 1 / 100 ∧
    irrLoopSpecConv 1 (10100001 / 10000000) 1 100 (1 / 100)
      = 1 / 100 + 101 / 1010000100 ∧
    (1 / 100 : ℚ) ≠ 1 / 100 + 101 / 1010000100 := by
  have hv : npv 1 (10100001 / 10000000) (1 / 100) 1 = some (1 / 10100000) := by
    norm_num [npv, npvSum]
  have hd : npv_derivative (10100001 / 10000000) (1 / 100) 1
      = some (-(10100001 / 10201000)) := by
    norm_num [npv_derivative, npvDerivSum]
  have hflat : ¬ |(-(10100001 / 10201000) : ℚ)| < 1 / 10 ^ 10 := by
    rw [abs_neg, abs_of_nonneg (by norm_num)]; norm_num
  have hconv : |(1 / 100 : ℚ) - (1 / 10100000) / (-(10100001 / 10201000)) - 1 / 100|
      < 1 / 10 ^ 6 := by
    norm_num
    rw [abs_of_nonneg (by norm_num)]; norm_num
  refine ⟨?_, ?_, by norm_num⟩
  · rw [show (100 : ℕ) = 99 + 1 from rfl,
      irrLoop_converged_eq 1 (10100001 / 10000000) (1 / 100) (1 / 10100000)
        (-(10100001 / 10201000)) 1 99 hv hd hflat hconv]
  · rw [show (100 : ℕ) = 99 + 1 from rfl,
      irrLoopSpecConv_converged_eq 1 (10100001 / 10000000) (1 / 100) (1 / 10100000)
        (-(10100001 / 10201000)) 1 99 hv hd hflat hconv]
    norm_num

/-- Claim C2 (amended): in the Newton iteration, whenever the
derivative guard passes and the step `r_new = r - npv(r)/npv'(r)`
satisfies `|r_new - r| < 1e-6`, the iteration stops and the value
returned (before the final non-negative clamp) is `r`, the iterate from
before the step — not the freshly computed `r_new`. -/
theorem irr_convergence_returns_previous_iterate
    (principal payment r v d : ℚ) (periods fuel : ℕ)
    (hv : npv principal payment r periods = some v)
    (hd : npv_derivative payment r periods = some d)
    (hflat : ¬ |d| < 1 / 10 ^ 10)
    (hconv : |r - v / d - r| < 1 / 10 ^ 6) :
    irrLoop principal payment periods (fuel + 1) r = r :=
  irrLoop_converged_eq principal payment r v d periods fuel hv hd hflat hconv

/-- Claim C2 witness: at principal 1, payment 2, periods 1, current
rate 1 (the exact root), the hypotheses hold and the loop returns the
old rate 1. -/
theorem irr_convergence_returns_previous_iterate_witness :
    irrLoop 1 2 1 (0 + 1) 1 = 1 :=
  irr_convergence_returns_previous_iterate 1 2 1 0 (-(1 / 2)) 1 0
    (by norm_num [npv, npvSum])
    (by norm_num [npv_derivative, npvDerivSum])
    (by rw [abs_neg, abs_of_nonneg (by norm_num)]; norm_num)
    (by norm_num)

/-- Claim C3, counterexample: the construction path accepts name "A",
principal 100, periods 12, per-period interest 50, total interest 999,
and the resulting entity keeps both supplied values unchanged even
though `999 ≠ 50 * 12` — refuting the claim that every successfully
constructed entity satisfies
`totalInterest == perPeriodInterest * periods`. -/
theorem mk_record_both_supplied_inconsistent :
    add_record "A" 100 12 50 999 "t"
      = .ok (mk_record "A" 100 12 (some 50) (some 999) none "t") ∧
    (mk_record "A" 100 12 (some 50) (some 999) none "t").monthly_interest = some 50 ∧
    (mk_record "A" 100 12 (some 50) (some 999) none "t").total_interest = some 999 ∧
    (999 : ℚ) ≠ 50 * ((12 : ℤ) : ℚ) := by
  refine ⟨?_, ?_, ?_, by norm_num⟩
  · rw [add_record, if_neg (by decide : ("A" : String) ≠ "")]
    norm_num
  · rw [mk_record, auto_calculate]
  · rw [mk_record, auto_calculate]

/-- Claim C3 (amended): for every entity constructed with exactly one
of the two interest fields supplied (the other `None`) and
`periods > 0`, after construction both interest fields are populated
and `totalInterest == perPeriodInterest * periods`. -/
theorem mk_record_single_source_consistent (name : String) (principal : ℚ)
    (periods : ℤ) (mi ti : Option ℚ) (ts : Option String) (now : String)
    (hone : (mi ≠ none ∧ ti = none) ∨ (mi = none ∧ ti ≠ none))
    (hper : 0 < periods) :
    (mk_record name principal periods mi ti ts now).monthly_interest ≠ none ∧
    (mk_record name principal periods mi ti ts now).total_interest =
      Option.map (fun m => m * (periods : ℚ))
        (mk_record name principal periods mi ti ts now).monthly_interest := by
  have hq : ((periods : ℚ)) ≠ 0 := by
    exact_mod_cast ne_of_gt (show (0 : ℤ) < periods from hper)
  rcases hone with ⟨hmi, hti⟩ | ⟨hmi, hti⟩
  · obtain ⟨m, rfl⟩ := Option.ne_none_iff_exists'.mp hmi
    subst hti
    simp [mk_record, auto_calculate, calculate_total_interest]
  · subst hmi
    obtain ⟨t, rfl⟩ := Option.ne_none_iff_exists'.mp hti
    simp [mk_record, auto_calculate, hper, div_mul_cancel₀, hq]

/-- Claim C3 witness: constructing with only per-period interest 50 and
periods 12 gives a populated, consistent entity. -/
theorem mk_record_single_source_consistent_witness :
    (mk_record "A" 100 12 (some 50) none none "t").monthly_interest ≠ none ∧
    (mk_record "A" 100 12 (some 50) none none "t").total_interest =
      Option.map (fun m => m * ((12 : ℤ) : ℚ))
        (mk_record "A" 100 12 (some 50) none none "t").monthly_interest :=
  mk_record_single_source_consistent "A" 100 12 (some 50) none none "t"
    (Or.inl ⟨by simp, rfl⟩) (by norm_num)

/-- Claim C4: round-trip derivation — constructing with only
`perPeriodInterest` supplied yields
`totalInterest = perPeriodInterest * periods`, and constructing with
only `totalInterest` supplied yields
`perPeriodInterest = totalInterest / periods`. -/
theorem mk_record_round_trip (name : String) (principal pI tI : ℚ)
    (periods : ℤ) (ts : Option String) (now : String)
    (hp : 0 < principal) (hn : 0 < periods) (hpI : 0 ≤ pI) (htI : 0 ≤ tI) :
    (mk_record name principal periods (some pI) none ts now).total_interest
      = some (pI * (periods : ℚ)) ∧
    (mk_record name principal periods none (some tI) ts now).monthly_interest
      = some (tI / (periods : ℚ)) := by
  constructor
  · simp [mk_record, auto_calculate, calculate_total_interest]
  · simp [mk_record, auto_calculate, hn]

/-- Claim C4 witness: principal 100, periods 12, per-period interest 50
and total interest 600 round-trip as stated. -/
theorem mk_record_round_trip_witness :
    (mk_record "A" 100 12 (some 50) none none "t").total_interest
      = some ((50 : ℚ) * ((12 : ℤ) : ℚ)) ∧
    (mk_record "A" 100 12 none (some 600) none "t").monthly_interest
      = some ((600 : ℚ) / ((12 : ℤ) : ℚ)) :=
  mk_record_round_trip "A" 100 50 600 12 none "t"
    (by norm_num) (by norm_num) (by norm_num) (by norm_num)

/-- Claim C5: whenever `principal <= 0` or `perPeriodPayment <= 0` or
`periods <= 0`, `calculate_irr` returns exactly `0`, via the guard that
precedes the Newton loop. -/
theorem calculate_irr_guard_zero (principal payment : ℚ) (periods : ℤ)
    (h : principal ≤ 0 ∨ payment ≤ 0 ∨ periods ≤ 0) :
    calculate_irr principal payment periods = 0 := by
  rw [calculate_irr, if_pos h]

/-- Claim C5 witness: `calculate_irr 0 1 1 = 0`. -/
theorem calculate_irr_guard_zero_witness : calculate_irr 0 1 1 = 0 :=
  calculate_irr_guard_zero 0 1 1 (Or.inl (by norm_num))

/-- Claim C6: for every input, `calculate_irr` returns a non-negative
value (the guard returns `0`; otherwise the result is `max 0 _`). -/
theorem calculate_irr_nonneg (principal payment : ℚ) (periods : ℤ) :
    0 ≤ calculate_irr principal payment periods := by
  rw [calculate_irr]
  split
  · exact le_refl 0
  · exact le_max_left 0 _

/-- Claim C7: `calculate_interest_rate` returns `0` when
`principal <= 0`, and `(totalInterest / principal) * 100` otherwise. -/
theorem calculate_interest_rate_spec (total_interest principal : ℚ) :
    (principal ≤ 0 → calculate_interest_rate total_interest principal = 0) ∧
    (0 < principal → calculate_interest_rate total_interest principal
      = total_interest / principal * 100) := by
  constructor
  · intro h; rw [calculate_interest_rate, if_pos h]
  · intro h; rw [calculate_interest_rate, if_neg (not_le.mpr h)]

/-- Claim C7 witness: both cases evaluated at concrete inputs. -/
theorem calculate_interest_rate_spec_witness :
    calculate_interest_rate 600 (-5) = 0 ∧
    calculate_interest_rate 600 100 = 600 / 100 * 100 :=
  ⟨(calculate_interest_rate_spec 600 (-5)).1 (by norm_num),
   (calculate_interest_rate_spec 600 100).2 (by norm_num)⟩

/-- Claim C8: `calculate_monthly_payment` returns `0` when
`periods <= 0`, and `(principal + totalInterest) / periods` otherwise. -/
theorem calculate_monthly_payment_spec (principal total_interest : ℚ)
    (periods : ℤ) :
    (periods ≤ 0 → calculate_monthly_payment principal total_interest periods = 0) ∧
    (0 < periods → calculate_monthly_payment principal total_interest periods
      = (principal + total_interest) / (periods : ℚ)) := by
  constructor
  · intro h; rw [calculate_monthly_payment, if_pos h]
  · intro h; rw [calculate_monthly_payment, if_neg (not_le.mpr h)]

/-- Claim C8 witness: both cases evaluated at concrete inputs. -/
theorem calculate_monthly_payment_spec_witness :
    calculate_monthly_payment 10000 600 0 = 0 ∧
    calculate_monthly_payment 10000 600 12 = (10000 + 600) / ((12 : ℤ) : ℚ) :=
  ⟨(calculate_monthly_payment_spec 10000 600 0).1 (by norm_num),
   (calculate_monthly_payment_spec 10000 600 12).2 (by norm_num)⟩

/-- Claim C9: the Newton loop of `calculate_irr` is a bounded
deterministic loop — started with its fuel of 100 it performs at most
100 iterations, for every input. -/
theorem irr_iterations_bounded (principal payment : ℚ) (periods : ℤ) :
    irrSteps principal payment periods.toNat 100 (1 / 100) ≤ 100 :=
  irrSteps_le_fuel principal payment periods.toNat 100 (1 / 100)

/-- Claim C10: frame property of construction — the auto-derivation
step can only assign an interest field that was passed as `None`;
name, principal, periods, and any interest field the caller supplied
retain exactly the values passed to the constructor. -/
theorem mk_record_frame (name : String) (principal : ℚ) (periods : ℤ)
    (mi ti : Option ℚ) (ts : Option String) (now : String) :
    (mk_record name principal periods mi ti ts now).name = name ∧
    (mk_record name principal periods mi ti ts now).principal = principal ∧
    (mk_record name principal periods mi ti ts now).periods = periods ∧
    (mi ≠ none → (mk_record name principal periods mi ti ts now).monthly_interest = mi) ∧
    (ti ≠ none → (mk_record name principal periods mi ti ts now).total_interest = ti) := by
  cases mi <;> cases ti <;>
    by_cases hper : 0 < periods <;>
    simp [mk_record, auto_calculate, hper]

/-- Claim C10 witness: with both interest fields supplied, every field
of the constructed record keeps its passed value. -/
theorem mk_record_frame_witness :
    (mk_record "A" 100 12 (some 50) (some 999) none "t").name = "A" ∧
    (mk_record "A" 100 12 (some 50) (some 999) none "t").principal = 100 ∧
    (mk_record "A" 100 12 (some 50) (some 999) none "t").periods = 12 ∧
    (mk_record "A" 100 12 (some 50) (some 999) none "t").monthly_interest = some 50 ∧
    (mk_record "A" 100 12 (some 50) (some 999) none "t").total_interest = some 999 :=
  ⟨(mk_record_frame "A" 100 12 (some 50) (some 999) none "t").1,
   (mk_record_frame "A" 100 12 (some 50) (some 999) none "t").2.1,
   (mk_record_frame "A" 100 12 (some 50) (some 999) none "t").2.2.1,
   (mk_record_frame "A" 100 12 (some 50) (some 999) none "t").2.2.2.1 (by simp),
   (mk_record_frame "A" 100 12 (some 50) (some 999) none "t").2.2.2.2 (by simp)⟩

end LoanCalc
